import Mathlib

/-!
# Verification of the mcpvil command bridge and frame-capture pipeline

Shallow embedding of `src/main.rs` and `src/winit.rs` of the mcpvil
repository: the MCP tool layer (`launch_app`, `screenshot`), the
command-dispatch bridge inserted into the calloop event loop
(`main`, lines 195-216), the winit redraw handler (`init_winit`,
`WinitEvent::Redraw` arm), and the frame-capture pipeline
(`take_screenshot`).

Conventions of the embedding:
* `tokio::sync::oneshot` response channels are modelled by a slot id
  (`Nat`) indexing into a map `Nat → SlotState α`; a slot is `empty`
  until a value is sent, `written v` after a successful send, and
  `dropped` when the sender is destroyed without sending (which the
  receiver observes as a dropped-channel error).
* `Result<T, String>` is `Except String T`; `u32` process ids are `Nat`.
* External collaborators (the GLES renderer, `std::process` spawning,
  the `image` crate, the filesystem) are modelled as explicit inputs
  (environment records / function parameters) or, where the repository
  source does not contain them, as definitions marked
  `Modelled from the spec:`.
* A Rust `panic` (from `.unwrap()` on an `Err`) terminates the process;
  it is modelled by the `StepResult.panicked` constructor, which carries
  the state holding the effects performed before the panic.
-/

namespace MCPvil

/-- Reply type of a `LaunchApp` command: `Result<u32, String>`
(`src/main.rs` line 52). -/
abbrev LaunchReply := Except String Nat

/-- Reply type of a `Screenshot` command: `Result<String, String>`
(`src/main.rs` line 56). -/
abbrev ShotReply := Except String String

/-- State of a oneshot response channel, as seen by its receiver. -/
inductive SlotState (α : Type) where
  | empty : SlotState α
  | written (v : α) : SlotState α
  | dropped : SlotState α
deriving DecidableEq

/-- `McpCommand` (`src/main.rs` lines 48-58); the oneshot sender is
modelled by its slot id. -/
inductive McpCommand where
  | launchApp (command : String) (args : List String) (response_tx : Nat)
  | screenshot (filename : String) (response_tx : Nat)

/-- A window geometry as returned by `space.element_geometry`:
`Rectangle<i32, Logical>` with location and size. -/
structure IRect where
  x : Int
  y : Int
  w : Int
  h : Int

/-- The value of a Rust `as u32` cast applied to an `i32` value. -/
def u32cast (n : Int) : Nat := (n % 4294967296).toNat

/-- Split a flat byte buffer into `h` rows of `rowLen` bytes each
(row `i` starts at offset `i * rowLen`). -/
def toRows (rowLen h : Nat) (buf : List Nat) : List (List Nat) :=
  (List.range h).map (fun i => (buf.drop (i * rowLen)).take rowLen)

/-- A host-memory RGBA image: width, height and the pixel rows in
storage order, 4 bytes per pixel. -/
structure RgbaImage where
  width : Nat
  height : Nat
  rows : List (List Nat)
deriving DecidableEq

/-- Modelled from the spec: `image::RgbaImage::from_raw` (external
crate, called at `src/winit.rs` line 164). Per spec §3 *CapturedImage*,
the image is "constructed from a raw byte buffer whose length must
equal width×height×4; constructing from a mismatched buffer length is
a fatal local error (no partial image)" — the constructor returns
`none` on a length mismatch and never truncates or pads. -/
def RgbaImage.from_raw (w h : Nat) (buf : List Nat) : Option RgbaImage :=
  if buf.length = w * h * 4 then some ⟨w, h, toRows (w * 4) h buf⟩ else none

/-- Modelled from the spec: `image::imageops::flip_vertical_in_place`
(external crate, called at `src/winit.rs` line 166). Per spec §4.3
step 4, "row order must be inverted", unconditionally and exactly. -/
def flip_vertical (img : RgbaImage) : RgbaImage :=
  { img with rows := img.rows.reverse }

/-- A crop rectangle in image coordinates (all components `u32`). -/
structure CropRect where
  x : Nat
  y : Nat
  w : Nat
  h : Nat
deriving DecidableEq

/-- The clamping arithmetic of `src/winit.rs` lines 171-174:
`x = geo.loc.x.max(0) as u32`, `y = geo.loc.y.max(0) as u32`,
`w = (geo.size.w as u32).min(width.saturating_sub(x))`,
`h = (geo.size.h as u32).min(height.saturating_sub(y))`.
`Nat` subtraction is saturating, matching `saturating_sub`. -/
def clampRect (geo : IRect) (width height : Nat) : CropRect :=
  { x := (max geo.x 0).toNat
    y := (max geo.y 0).toNat
    w := Nat.min (u32cast geo.w) (width - (max geo.x 0).toNat)
    h := Nat.min (u32cast geo.h) (height - (max geo.y 0).toNat) }

/-- Modelled from the spec: `image::DynamicImage::crop_imm` (external
crate, called at `src/winit.rs` line 175) extracts the sub-rectangle
of the image at offset `(x, y)` with dimensions `w × h`; the caller
passes a rectangle already clamped to the image bounds. -/
def crop_imm (img : RgbaImage) (x y w h : Nat) : RgbaImage :=
  { width := w
    height := h
    rows := ((img.rows.drop y).take h).map (fun r => (r.drop (x * 4)).take (w * 4)) }

/-- Result of `renderer.copy_framebuffer`: a texture mapping exposing
its pixel dimensions (`mapping.width()`, `mapping.height()`). -/
structure Mapping where
  width : Nat
  height : Nat

/-- The external collaborators consumed by one run of
`take_screenshot`: the renderer copy/map results, the space's window
enumeration and geometry lookup, and the filesystem/encoder outcome.
`save` is modelled from the spec (§4.3 step 6): encode/persist success
depends on the destination path, and (per the §4.3 edge-case rule) a
zero-width or zero-height image still encodes successfully. -/
structure CaptureEnv where
  copy_framebuffer : Except String Mapping
  map_texture : Except String (List Nat)
  windows : List Nat
  element_geometry : Nat → Option IRect
  save : String → Except String Unit

/-- The crop stage of `take_screenshot` (`src/winit.rs` lines 168-181):
crop to the first window's clamped geometry if a window exists and its
geometry lookup succeeds; otherwise keep the image unchanged.
`env.windows.head?` models `space.elements().next()`. -/
def cropStep (env : CaptureEnv) (img : RgbaImage) : RgbaImage :=
  match env.windows.head? with
  | some window =>
    match env.element_geometry window with
    | some geo =>
      let r := clampRect geo img.width img.height
      crop_imm img r.x r.y r.w r.h
    | none => img
  | none => img

/-- `take_screenshot` (`src/winit.rs` lines 142-192): copy the
framebuffer, map it, build the image (error on malformed buffer), flip
vertically, crop to the first window if any, save, and return the
descriptor string; every failure is returned as descriptive text. -/
def take_screenshot (env : CaptureEnv) (filename : String) : Except String String :=
  match env.copy_framebuffer with
  | .error e => .error ("Failed to copy framebuffer: " ++ e)
  | .ok mapping =>
    match env.map_texture with
    | .error e => .error ("Failed to map texture: " ++ e)
    | .ok pixels =>
      match RgbaImage.from_raw mapping.width mapping.height pixels with
      | none => .error "Failed to create image from pixel data"
      | some img0 =>
        let img := cropStep env (flip_vertical img0)
        match env.save filename with
        | .error e => .error ("Failed to save screenshot: " ++ e)
        | .ok _ =>
          .ok ("Screenshot saved to " ++ filename ++ " (" ++
               toString img.width ++ "x" ++ toString img.height ++ ")")

/-- The cross-domain state owned by the render domain: the deferred
screenshot slot `state.pending_screenshot : Option<(String, Sender)>`
plus the observable states of all oneshot response channels. -/
structure SysState where
  pending_screenshot : Option (String × Nat)
  launchSlots : Nat → SlotState LaunchReply
  shotSlots : Nat → SlotState ShotReply

/-- Send a value on a oneshot channel: writes only if the slot is still
empty (a oneshot sender can send at most once). -/
def writeSlot {α : Type} (slots : Nat → SlotState α) (i : Nat) (v : α) :
    Nat → SlotState α :=
  fun j =>
    if j = i then
      match slots i with
      | .empty => .written v
      | s => s
    else slots j

/-- Destroy a oneshot sender without sending: an empty slot becomes
`dropped`; a slot already written keeps its value. -/
def dropSlot {α : Type} (slots : Nat → SlotState α) (i : Nat) :
    Nat → SlotState α :=
  fun j =>
    if j = i then
      match slots i with
      | .empty => .dropped
      | s => s
    else slots j

/-- The command-bridge dispatch (`src/main.rs` lines 195-216), run once
per message in the render loop. `spawn` models
`std::process::Command::spawn` (external): its error is already the
`e.to_string()` text. A `LaunchApp` is executed synchronously and its
single result written to its slot; a `Screenshot` replaces the pending
capture, dropping the previous pending oneshot sender unwritten. -/
def dispatchCommand (spawn : String → List String → Except String Nat)
    (st : SysState) : McpCommand → SysState
  | .launchApp command args response_tx =>
    let result : LaunchReply :=
      match spawn command args with
      | .ok child => .ok child
      | .error e => .error e
    { st with launchSlots := writeSlot st.launchSlots response_tx result }
  | .screenshot filename response_tx =>
    let st1 :=
      match st.pending_screenshot with
      | some prev => { st with shotSlots := dropSlot st.shotSlots prev.2 }
      | none => st
    { st1 with pending_screenshot := some (filename, response_tx) }

/-- Dispatch a queue of commands in arrival order (FIFO). -/
def dispatchList (spawn : String → List String → Except String Nat)
    (st : SysState) : List McpCommand → SysState
  | [] => st
  | c :: cs => dispatchList spawn (dispatchCommand spawn st c) cs

/-- The backend/renderer outcomes of one `WinitEvent::Redraw` handling
(`src/winit.rs` lines 78-131): `backend.bind()`, `render_output`,
`backend.submit`, and the capture collaborators. -/
structure RedrawEnv where
  bind : Except String Unit
  render_output : Except String Unit
  submit : Except String Unit
  capture : CaptureEnv

/-- Outcome of one event-loop step: either the loop stays live, or the
process panicked (`.unwrap()` on an `Err`). The carried state records
the observable effects performed before the panic. -/
inductive StepResult where
  | ok (st : SysState) : StepResult
  | panicked (st : SysState) : StepResult

/-- The state carried by a step outcome. -/
def StepResult.state : StepResult → SysState
  | .ok st => st
  | .panicked st => st

/-- The `WinitEvent::Redraw` arm (`src/winit.rs` lines 78-131):
`backend.bind().unwrap()`, `render_output(..).unwrap()`, then — if a
screenshot is pending — `take_screenshot` is run and its result sent
on the pending slot (`pending_screenshot.take()` clears the slot),
then `backend.submit(..).unwrap()`. An `Err` at any `.unwrap()`
panics, terminating the process. -/
def redrawStep (env : RedrawEnv) (st : SysState) : StepResult :=
  match env.bind with
  | .error _ => .panicked st
  | .ok _ =>
    match env.render_output with
    | .error _ => .panicked st
    | .ok _ =>
      let st1 :=
        match st.pending_screenshot with
        | some pending =>
          { st with
            pending_screenshot := none
            shotSlots := writeSlot st.shotSlots pending.2
              (take_screenshot env.capture pending.1) }
        | none => st
      match env.submit with
      | .error _ => .panicked st1
      | .ok _ => .ok st1

/-- One wake of the render loop: either a command-channel message or a
redraw tick. -/
inductive Event where
  | cmd (c : McpCommand)
  | redraw (env : RedrawEnv)

/-- One event-loop step. -/
def step (spawn : String → List String → Except String Nat)
    (st : SysState) : Event → StepResult
  | .cmd c => .ok (dispatchCommand spawn st c)
  | .redraw env => redrawStep env st

/-- Run a sequence of event-loop steps, threading the state (the state
carried past a panic only records effects already performed; tracking
it is conservative for slot-state invariants). -/
def run (spawn : String → List String → Except String Nat)
    (st : SysState) : List Event → SysState
  | [] => st
  | ev :: evs => run spawn (step spawn st ev).state evs

/-- Result of an MCP tool call: either a successful `CallToolResult`
with text content, or an `McpError`. -/
inductive ToolResult where
  | success (text : String) : ToolResult
  | mcpError (message : String) : ToolResult
deriving DecidableEq

/-- Whether a tool call result is an `McpError`. -/
def ToolResult.isMcpError : ToolResult → Bool
  | .mcpError _ => true
  | .success _ => false

/-- The `launch_app` tool handler (`src/main.rs` lines 94-119).
`send` is the outcome of `command_tx.send`, `recv` the outcome of
awaiting the oneshot receiver (`none` models a dropped channel). -/
def launch_app (send : Except String Unit) (recv : Option LaunchReply)
    (command : String) (args : List String) : ToolResult :=
  match send with
  | .error e => .mcpError ("Failed to send command: " ++ e)
  | .ok _ =>
    match recv with
    | none => .mcpError "Event loop dropped response channel"
    | some (.ok pid) =>
      .success ("Launched " ++ command ++ " (pid " ++ toString pid ++
                ") with args " ++ toString args)
    | some (.error e) =>
      .success ("Failed to launch " ++ command ++ ": " ++ e)

/-- The `screenshot` tool handler (`src/main.rs` lines 122-143). -/
def screenshot (send : Except String Unit) (recv : Option ShotReply) :
    ToolResult :=
  match send with
  | .error e => .mcpError ("Failed to send command: " ++ e)
  | .ok _ =>
    match recv with
    | none => .mcpError "Event loop dropped response channel"
    | some (.ok msg) => .success msg
    | some (.error e) =>
      .success ("Failed to take screenshot: " ++ e)

/-! ## Concrete instances used to evaluate the definitions -/

/-- A spawn collaborator that always succeeds with pid 7. -/
def spawn₀ : String → List String → Except String Nat := fun _ _ => .ok 7

/-- A capture environment for a 2×2 frame with no mapped windows. -/
def captureEnv₀ : CaptureEnv :=
  { copy_framebuffer := .ok ⟨2, 2⟩
    map_texture := .ok (List.replicate 16 0)
    windows := []
    element_geometry := fun _ => none
    save := fun _ => .ok () }

/-- A state with one pending screenshot on slot 0 and all slots empty. -/
def stPending : SysState :=
  { pending_screenshot := some ("first.png", 0)
    launchSlots := fun _ => .empty
    shotSlots := fun _ => .empty }

/-- A state with no pending screenshot and all slots empty. -/
def stNoPending : SysState :=
  { pending_screenshot := none
    launchSlots := fun _ => .empty
    shotSlots := fun _ => .empty }

/-- A redraw in which every backend call succeeds. -/
def redrawEnvOk : RedrawEnv :=
  { bind := .ok (), render_output := .ok (), submit := .ok ()
    capture := captureEnv₀ }

/-- A redraw in which `backend.bind()` returns an `Err`. -/
def redrawEnvBindFail : RedrawEnv :=
  { bind := .error "Failed to create EGL surface"
    render_output := .ok (), submit := .ok (), capture := captureEnv₀ }

/-- A redraw in which `render_output` returns an `Err`. -/
def redrawEnvRenderFail : RedrawEnv :=
  { bind := .ok (), render_output := .error "Gles rendering error"
    submit := .ok (), capture := captureEnv₀ }

/-- A redraw in which `backend.submit` returns an `Err`. -/
def redrawEnvSubmitFail : RedrawEnv :=
  { bind := .ok (), render_output := .ok ()
    submit := .error "Swap buffers error", capture := captureEnv₀ }

/-- A 1×2 device copy whose row 0 is the marker `[1,1,1,1]` and whose
row 1 is `[2,2,2,2]`. -/
def markerBuf : List Nat := [1, 1, 1, 1, 2, 2, 2, 2]

/-- The image built by `RgbaImage.from_raw 1 2 markerBuf`. -/
def markerImg : RgbaImage := ⟨1, 2, [[1, 1, 1, 1], [2, 2, 2, 2]]⟩

/-- A capture environment with one window whose geometry lookup fails. -/
def captureEnvNoGeo : CaptureEnv := { captureEnv₀ with windows := [5] }

/-- A concrete in-bounds window geometry. -/
def geo₁ : IRect := ⟨1, 0, 1, 2⟩

/-- A capture environment with one window at geometry `geo₁`. -/
def captureEnvGeo : CaptureEnv :=
  { captureEnv₀ with
    windows := [5]
    element_geometry := fun _ => some geo₁ }

/-- A capture environment whose mapped byte buffer has length 3,
which differs from `2 × 2 × 4 = 16`. -/
def captureEnvBadBuf : CaptureEnv :=
  { captureEnv₀ with map_texture := .ok [0, 0, 0] }

/-- A geometry whose clamped crop rectangle has zero width. -/
def geoZero : IRect := ⟨0, 0, 0, 2⟩

/-- A capture environment with one window whose clamped crop rectangle
is zero-width. -/
def captureEnvZeroCrop : CaptureEnv :=
  { captureEnv₀ with
    windows := [9]
    element_geometry := fun _ => some geoZero }

/-- A spawn collaborator that always fails with a spawn error text. -/
def spawnFail : String → List String → Except String Nat :=
  fun _ _ => .error "No such file or directory (os error 2)"

/-! ## Helper lemmas -/

theorem writeSlot_apply_empty {α : Type} (slots : Nat → SlotState α)
    (i : Nat) (v : α) (h : slots i = .empty) :
    writeSlot slots i v i = .written v := by
  simp [writeSlot, h]

theorem writeSlot_apply_nonempty {α : Type} (slots : Nat → SlotState α)
    (i j : Nat) (v : α) (h : slots j ≠ .empty) :
    writeSlot slots i v j = slots j := by
  unfold writeSlot
  by_cases hj : j = i
  · subst hj
    cases hs : slots j with
    | empty => exact absurd hs h
    | written w => simp [hs]
    | dropped => simp [hs]
  · simp [hj]

theorem dropSlot_apply_nonempty {α : Type} (slots : Nat → SlotState α)
    (i j : Nat) (h : slots j ≠ .empty) :
    dropSlot slots i j = slots j := by
  unfold dropSlot
  by_cases hj : j = i
  · subst hj
    cases hs : slots j with
    | empty => exact absurd hs h
    | written w => simp [hs]
    | dropped => simp [hs]
  · simp [hj]

/-- No event-loop step changes a screenshot slot that is no longer
empty: a oneshot channel is written at most once and a dropped one
stays dropped. -/
theorem step_preserves_shotSlot (spawn : String → List String → Except String Nat)
    (st : SysState) (ev : Event) (i : Nat) (h : st.shotSlots i ≠ .empty) :
    ((step spawn st ev).state).shotSlots i = st.shotSlots i := by
  cases ev with
  | cmd c =>
    cases c with
    | launchApp command args tx =>
      simp [step, dispatchCommand, StepResult.state]
    | screenshot f tx =>
      simp only [step, dispatchCommand, StepResult.state]
      cases hp : st.pending_screenshot with
      | none => simp
      | some prev => simp [dropSlot_apply_nonempty st.shotSlots prev.2 i h]
  | redraw env =>
    simp only [step, redrawStep]
    cases env.bind with
    | error e => simp [StepResult.state]
    | ok u =>
      cases env.render_output with
      | error e => simp [StepResult.state]
      | ok u2 =>
        cases hp : st.pending_screenshot with
        | none =>
          cases env.submit <;> simp [StepResult.state]
        | some pending =>
          cases env.submit <;>
            simp [StepResult.state,
              writeSlot_apply_nonempty st.shotSlots pending.2 i _ h]

/-- A dropped screenshot slot stays dropped over any run of the event
loop: the abandoned caller can never receive a reply. -/
theorem run_shotSlot_dropped (spawn : String → List String → Except String Nat)
    (i : Nat) :
    ∀ (evs : List Event) (st : SysState), st.shotSlots i = .dropped →
      (run spawn st evs).shotSlots i = .dropped := by
  intro evs
  induction evs with
  | nil => intro st h; exact h
  | cons ev evs ih =>
    intro st h
    have hne : st.shotSlots i ≠ .empty := by rw [h]; exact fun hc => by cases hc
    have hstep := step_preserves_shotSlot spawn st ev i hne
    exact ih _ (hstep.trans h)

/-- A written launch slot keeps its value across any further command
dispatches: the single reply of a `LaunchApp` is never overwritten. -/
theorem dispatchList_preserves_written_launchSlot
    (spawn : String → List String → Except String Nat) (tx : Nat) (r : LaunchReply) :
    ∀ (cmds : List McpCommand) (st : SysState), st.launchSlots tx = .written r →
      (dispatchList spawn st cmds).launchSlots tx = .written r := by
  intro cmds
  induction cmds with
  | nil => intro st h; exact h
  | cons c cs ih =>
    intro st h
    apply ih
    cases c with
    | launchApp command args tx2 =>
      simp only [dispatchCommand]
      rw [writeSlot_apply_nonempty st.launchSlots tx2 tx _
        (by rw [h]; exact fun hc => by cases hc)]
      exact h
    | screenshot f tx2 =>
      simp only [dispatchCommand]
      cases hp : st.pending_screenshot <;> simp [h]

/-! ## Claim theorems -/

/-- **C1**: at most one `PendingCapture` exists at any time (the state
field is an `Option`); when a `Screenshot` command arrives while
another is already pending, the new `(filename, slot)` pair replaces
the prior one, the prior slot is dropped unwritten, and over every
subsequent run of the event loop the earlier slot stays dropped — the
earlier caller observes a dropped channel, never a reply. -/
theorem screenshot_replaces_pending
    (spawn : String → List String → Except String Nat) (st : SysState)
    (f₁ f₂ : String) (i₁ i₂ : Nat)
    (hp : st.pending_screenshot = some (f₁, i₁))
    (hs : st.shotSlots i₁ = .empty) :
    (dispatchCommand spawn st (.screenshot f₂ i₂)).pending_screenshot =
      some (f₂, i₂) ∧
    (dispatchCommand spawn st (.screenshot f₂ i₂)).shotSlots i₁ = .dropped ∧
    ∀ evs : List Event,
      (run spawn (dispatchCommand spawn st (.screenshot f₂ i₂)) evs).shotSlots i₁ =
        .dropped := by
  have h1 : (dispatchCommand spawn st (.screenshot f₂ i₂)).pending_screenshot =
      some (f₂, i₂) := by
    simp only [dispatchCommand]
  have h2 : (dispatchCommand spawn st (.screenshot f₂ i₂)).shotSlots i₁ =
      .dropped := by
    simp only [dispatchCommand, hp]
    simp [dropSlot, hs]
  exact ⟨h1, h2, fun evs => run_shotSlot_dropped spawn i₁ evs _ h2⟩

/-- Witness for C1 at a concrete state: a second `Screenshot` arriving
while `("first.png", slot 0)` is pending. -/
theorem screenshot_replaces_pending_witness :
    (dispatchCommand spawn₀ stPending (.screenshot "second.png" 1)).pending_screenshot =
      some ("second.png", 1) ∧
    (dispatchCommand spawn₀ stPending (.screenshot "second.png" 1)).shotSlots 0 =
      .dropped ∧
    (run spawn₀ (dispatchCommand spawn₀ stPending (.screenshot "second.png" 1))
      [.redraw redrawEnvOk]).shotSlots 0 = .dropped := by
  obtain ⟨h1, h2, h3⟩ :=
    screenshot_replaces_pending spawn₀ stPending "first.png" "second.png" 0 1 rfl rfl
  exact ⟨h1, h2, h3 [.redraw redrawEnvOk]⟩

/-- **C2**: on every redraw that reaches the capture step (bind and
render succeeded) with a pending capture present, `take_screenshot` is
run, its result — success or failure alike — is written to the pending
slot, and `pending_screenshot` is cleared, whatever the outcome of the
subsequent submit. -/
theorem redraw_resolves_pending (env : RedrawEnv) (st : SysState)
    (f : String) (i : Nat)
    (hb : env.bind = .ok ()) (hr : env.render_output = .ok ())
    (hp : st.pending_screenshot = some (f, i))
    (hs : st.shotSlots i = .empty) :
    ((redrawStep env st).state).pending_screenshot = none ∧
    ((redrawStep env st).state).shotSlots i =
      .written (take_screenshot env.capture f) := by
  simp only [redrawStep, hb, hr, hp]
  cases env.submit <;> simp [StepResult.state, writeSlot, hs]

/-- Witness for C2 at a concrete redraw and state. -/
theorem redraw_resolves_pending_witness :
    ((redrawStep redrawEnvOk stPending).state).pending_screenshot = none ∧
    ((redrawStep redrawEnvOk stPending).state).shotSlots 0 =
      .written (take_screenshot captureEnv₀ "first.png") :=
  redraw_resolves_pending redrawEnvOk stPending "first.png" 0 rfl rfl rfl rfl

/-- **C3** (code evaluated at the failing inputs): an `Err` from
`backend.bind()`, from `render_output`, or from `backend.submit`
during a redraw is `.unwrap()`ed and panics, terminating the process —
in the bind/render cases with the pending capture still unserviced. -/
theorem renderer_failure_panics :
    step spawn₀ stPending (.redraw redrawEnvBindFail) = .panicked stPending ∧
    step spawn₀ stPending (.redraw redrawEnvRenderFail) = .panicked stPending ∧
    step spawn₀ stNoPending (.redraw redrawEnvSubmitFail) = .panicked stNoPending ∧
    stPending.pending_screenshot = some ("first.png", 0) :=
  ⟨rfl, rfl, rfl, rfl⟩

/-- **C4 counterexample**: the marker `[1,1,1,1]` sits in device-copy
row 0 of a 1×2 image; after the flip it sits in output row 1 — the
image's bottom row — not in the visual top row (row 0), which holds
the device's last row `[2,2,2,2]`. -/
theorem flip_marker_not_at_top :
    RgbaImage.from_raw 1 2 markerBuf = some markerImg ∧
    (flip_vertical markerImg).rows[0]? = some [2, 2, 2, 2] ∧
    (flip_vertical markerImg).rows[1]? = some [1, 1, 1, 1] ∧
    (flip_vertical markerImg).rows[0]? ≠ some [1, 1, 1, 1] := by
  refine ⟨by decide, by decide, by decide, by decide⟩

/-- **C4** (amended): for every successfully constructed captured
image the flip is exact and unconditional — output row `i` equals
device-copy row `height - 1 - i` for every `i` and every image size;
consequently a marker pixel in device-copy row 0 lands in the
persisted image's **bottom** row (row `height - 1`), and it is the
device copy's last row that lands at the visual top. -/
theorem flip_vertical_rows (w h : Nat) (buf : List Nat) (img : RgbaImage)
    (i : Nat) (hc : RgbaImage.from_raw w h buf = some img) (hi : i < h) :
    (flip_vertical img).rows[i]? =
      some ((buf.drop ((h - 1 - i) * (w * 4))).take (w * 4)) := by
  unfold RgbaImage.from_raw at hc
  split at hc
  · injection hc with hc
    subst hc
    simp only [flip_vertical]
    have hlen : (toRows (w * 4) h buf).length = h := by
      simp [toRows]
    have hi' : i < (toRows (w * 4) h buf).length := by rw [hlen]; exact hi
    rw [List.getElem?_reverse hi', hlen]
    have hj : h - 1 - i < h := by omega
    simp [toRows, List.getElem?_map, List.getElem?_range, hj]
  · cases hc

/-- Witness for C4's amended theorem on the concrete marker image:
device row 0 of the 1×2 copy appears at output row `2 - 1 - 1 = 0`
offset, i.e. output row 1 holds `markerBuf.drop 0 |>.take 4`. -/
theorem flip_vertical_rows_witness :
    RgbaImage.from_raw 1 2 markerBuf = some markerImg ∧ 1 < 2 ∧
    (flip_vertical markerImg).rows[1]? =
      some ((markerBuf.drop ((2 - 1 - 1) * (1 * 4))).take (1 * 4)) :=
  ⟨by decide, by decide,
    flip_vertical_rows 1 2 markerBuf markerImg 1 (by decide) (by decide)⟩

/-- **C5**: the clamping arithmetic keeps the crop rectangle inside
the image: the origin is a pair of naturals (hence `x ≥ 0` and
`y ≥ 0` by construction, via `.max(0)`), the width never exceeds
`width - x` and the height never exceeds `height - y` (saturating
subtraction, as in the source); and the boundary example
`x = 750, w = 100` in an 800-wide frame clamps the width to 50
without erroring. -/
theorem clampRect_within_bounds :
    (∀ (geo : IRect) (width height : Nat),
      (clampRect geo width height).w ≤ width - (clampRect geo width height).x ∧
      (clampRect geo width height).h ≤ height - (clampRect geo width height).y) ∧
    clampRect ⟨750, 0, 100, 50⟩ 800 600 = ⟨750, 0, 50, 50⟩ := by
  constructor
  · intro geo width height
    exact ⟨Nat.min_le_right _ _, Nat.min_le_right _ _⟩
  · decide

/-- **C6**: the crop target is the first window in the space's
enumeration order whenever one exists; if no window is visible, or the
geometry lookup for that first window returns `none`, cropping is
skipped and the flipped image is kept unchanged; otherwise the image
is cropped to the first window's clamped geometry. -/
theorem crop_targets_first_window (env : CaptureEnv) (img : RgbaImage) :
    (env.windows = [] → cropStep env img = img) ∧
    (∀ w ws, env.windows = w :: ws → env.element_geometry w = none →
      cropStep env img = img) ∧
    (∀ w ws geo, env.windows = w :: ws → env.element_geometry w = some geo →
      cropStep env img =
        crop_imm img (clampRect geo img.width img.height).x
          (clampRect geo img.width img.height).y
          (clampRect geo img.width img.height).w
          (clampRect geo img.width img.height).h) := by
  refine ⟨?_, ?_, ?_⟩
  · intro h
    simp [cropStep, h]
  · intro w ws hw hg
    simp [cropStep, hw, hg]
  · intro w ws geo hw hg
    simp [cropStep, hw, hg]

/-- Witness for C6 at concrete environments: no window, a window
without geometry, and a window with geometry `geo₁`. -/
theorem crop_targets_first_window_witness :
    cropStep captureEnv₀ markerImg = markerImg ∧
    cropStep captureEnvNoGeo markerImg = markerImg ∧
    cropStep captureEnvGeo markerImg =
      crop_imm markerImg (clampRect geo₁ markerImg.width markerImg.height).x
        (clampRect geo₁ markerImg.width markerImg.height).y
        (clampRect geo₁ markerImg.width markerImg.height).w
        (clampRect geo₁ markerImg.width markerImg.height).h :=
  ⟨(crop_targets_first_window captureEnv₀ markerImg).1 rfl,
   (crop_targets_first_window captureEnvNoGeo markerImg).2.1 5 [] rfl rfl,
   (crop_targets_first_window captureEnvGeo markerImg).2.2 5 [] geo₁ rfl rfl⟩

/-- **C7**: constructing the pixel image from a byte buffer whose
length differs from `width × height × 4` yields `none`, and the
capture request resolves with the terminal local error text
`"Failed to create image from pixel data"`; the pipeline is a total
function — it never panics, reads out of bounds, truncates or pads. -/
theorem malformed_buffer_is_local_error (env : CaptureEnv) (f : String)
    (m : Mapping) (buf : List Nat)
    (hc : env.copy_framebuffer = .ok m) (hm : env.map_texture = .ok buf)
    (hlen : buf.length ≠ m.width * m.height * 4) :
    RgbaImage.from_raw m.width m.height buf = none ∧
    take_screenshot env f = .error "Failed to create image from pixel data" := by
  have h1 : RgbaImage.from_raw m.width m.height buf = none := by
    simp [RgbaImage.from_raw, hlen]
  refine ⟨h1, ?_⟩
  simp [take_screenshot, hc, hm, h1]

/-- Witness for C7: a 3-byte buffer fed to a 2×2 image construction. -/
theorem malformed_buffer_is_local_error_witness :
    RgbaImage.from_raw 2 2 [0, 0, 0] = none ∧
    take_screenshot captureEnvBadBuf "shot.png" =
      .error "Failed to create image from pixel data" :=
  malformed_buffer_is_local_error captureEnvBadBuf "shot.png" ⟨2, 2⟩ [0, 0, 0]
    rfl rfl (by decide)

/-- **C8**: a `LaunchApp` command is executed synchronously within the
dispatch step that drains it — the dispatch itself writes exactly one
reply (the pid on spawn success, the spawn error text on failure) to
its slot — and that reply is never overwritten while any further
queued commands are processed; dispatch is total, so the render domain
continues after a failure. -/
theorem launch_app_synchronous_reply
    (spawn : String → List String → Except String Nat) (st : SysState)
    (command : String) (args : List String) (tx : Nat)
    (hs : st.launchSlots tx = .empty) :
    (dispatchCommand spawn st (.launchApp command args tx)).launchSlots tx =
      .written (spawn command args) ∧
    ∀ cmds : List McpCommand,
      (dispatchList spawn
        (dispatchCommand spawn st (.launchApp command args tx)) cmds).launchSlots tx =
          .written (spawn command args) := by
  have h1 : (dispatchCommand spawn st (.launchApp command args tx)).launchSlots tx =
      .written (spawn command args) := by
    simp only [dispatchCommand]
    cases hsp : spawn command args <;> simp [writeSlot, hs, hsp]
  exact ⟨h1,
    fun cmds => dispatchList_preserves_written_launchSlot spawn tx _ cmds _ h1⟩

/-- Witness for C8 on a failing spawn followed by a further queued
command: the reply is the spawn error text and it persists. -/
theorem launch_app_synchronous_reply_witness :
    (dispatchCommand spawnFail stNoPending (.launchApp "xterm" [] 3)).launchSlots 3 =
      .written (spawnFail "xterm" []) ∧
    (dispatchList spawnFail
      (dispatchCommand spawnFail stNoPending (.launchApp "xterm" [] 3))
      [.screenshot "s.png" 4]).launchSlots 3 = .written (spawnFail "xterm" []) :=
  ⟨(launch_app_synchronous_reply spawnFail stNoPending "xterm" [] 3 rfl).1,
   (launch_app_synchronous_reply spawnFail stNoPending "xterm" [] 3 rfl).2
     [.screenshot "s.png" 4]⟩

/-- **C9**: a crop rectangle with zero width or zero height still
completes the capture pipeline with a successful save and descriptor
(the encoder outcome is the spec-modelled per-path `save`), for every
destination path at which an image would have saved successfully; the
pipeline is total, so there is no panic. -/
theorem zero_area_crop_still_saves (env : CaptureEnv) (f : String)
    (m : Mapping) (buf : List Nat) (win : Nat) (ws : List Nat) (geo : IRect)
    (hc : env.copy_framebuffer = .ok m) (hm : env.map_texture = .ok buf)
    (hlen : buf.length = m.width * m.height * 4)
    (hw : env.windows = win :: ws)
    (hg : env.element_geometry win = some geo)
    (_hz : (clampRect geo m.width m.height).w = 0 ∨
           (clampRect geo m.width m.height).h = 0)
    (hsave : env.save f = .ok ()) :
    take_screenshot env f =
      .ok ("Screenshot saved to " ++ f ++ " (" ++
           toString (clampRect geo m.width m.height).w ++ "x" ++
           toString (clampRect geo m.width m.height).h ++ ")") := by
  simp [take_screenshot, hc, hm, RgbaImage.from_raw, hlen, cropStep, hw, hg,
    flip_vertical, crop_imm, hsave]

/-- Witness for C9: a zero-width clamped geometry over a 2×2 frame. -/
theorem zero_area_crop_still_saves_witness :
    take_screenshot captureEnvZeroCrop "zero.png" =
      .ok ("Screenshot saved to " ++ "zero.png" ++ " (" ++
           toString (clampRect geoZero 2 2).w ++ "x" ++
           toString (clampRect geoZero 2 2).h ++ ")") :=
  zero_area_crop_still_saves captureEnvZeroCrop "zero.png" ⟨2, 2⟩
    (List.replicate 16 0) 9 [] geoZero rfl rfl (by decide) rfl rfl
    (Or.inl (by decide)) rfl

/-- **C10**: for both tools, an operational failure carried in the
reply is returned as a *successful* tool result whose text is prefixed
`"Failed to launch"` / `"Failed to take screenshot"`; the call yields
an `McpError` exactly when sending on the command channel fails or the
reply channel is dropped before a value is written. -/
theorem tool_failure_is_success_text (command : String) (args : List String) :
    (∀ e : String, launch_app (.ok ()) (some (.error e)) command args =
      .success ("Failed to launch " ++ command ++ ": " ++ e)) ∧
    (∀ e : String, screenshot (.ok ()) (some (.error e)) =
      .success ("Failed to take screenshot: " ++ e)) ∧
    (∀ (send : Except String Unit) (recv : Option LaunchReply),
      (launch_app send recv command args).isMcpError = true ↔
        (∃ e, send = .error e) ∨ recv = none) ∧
    (∀ (send : Except String Unit) (recv : Option ShotReply),
      (screenshot send recv).isMcpError = true ↔
        (∃ e, send = .error e) ∨ recv = none) := by
  refine ⟨fun e => rfl, fun e => rfl, ?_, ?_⟩
  · intro send recv
    cases send with
    | error e => simp [launch_app, ToolResult.isMcpError]
    | ok u =>
      cases recv with
      | none => simp [launch_app, ToolResult.isMcpError]
      | some r => cases r <;> simp [launch_app, ToolResult.isMcpError]
  · intro send recv
    cases send with
    | error e => simp [screenshot, ToolResult.isMcpError]
    | ok u =>
      cases recv with
      | none => simp [screenshot, ToolResult.isMcpError]
      | some r => cases r <;> simp [screenshot, ToolResult.isMcpError]

/-- Witness for C10 at a concrete command and error text. -/
theorem tool_failure_is_success_text_witness :
    launch_app (.ok ()) (some (.error "boom")) "xterm" [] =
      .success ("Failed to launch " ++ "xterm" ++ ": " ++ "boom") ∧
    screenshot (.ok ()) (some (.error "boom")) =
      .success ("Failed to take screenshot: " ++ "boom") :=
  ⟨(tool_failure_is_success_text "xterm" []).1 "boom",
   (tool_failure_is_success_text "xterm" []).2.1 "boom"⟩

end MCPvil
